import Mathlib

/-!
Shallow embedding of the IntelliScaleSim backend core:
the auto-scaling decision logic (`backend/autoscaler_engine.py`),
the policy CRUD router (`backend/routers/auto_scaling.py`) and
the load-testing engine (`backend/routers/load_testing.py`),
together with theorems settling the specification claims.
-/

namespace IntelliScaleSim

/-- Embedding of the in-memory `ScalingPolicy` class of
`backend/routers/auto_scaling.py` (same fields as the SQLAlchemy model of
`backend/models/auto_scaling.py` minus persistence metadata).  Python floats
carrying percentages/thresholds are modelled as `ℚ`; Python ints as `ℤ`.
Note: neither model has any `cooldown_period` field. -/
structure ScalingPolicy where
  id : ℕ
  policy_name : String
  container_id : String
  min_replicas : ℤ
  max_replicas : ℤ
  target_cpu : ℚ
  cpu_scale_up_threshold : ℚ
  cpu_scale_down_threshold : ℚ
  target_memory : ℚ
  memory_scale_up_threshold : ℚ
  memory_scale_down_threshold : ℚ
  check_interval_seconds : ℤ
  is_active : Bool
deriving DecidableEq, Repr

/-- Embedding of the `ScalingEvent` record constructed in
`backend/autoscaler_engine.py` (fields as passed to the constructor). -/
structure ScalingEvent where
  policy_id : ℕ
  event_type : String
  reason : String
  replicas_before : ℕ
  replicas_after : ℕ
deriving DecidableEq, Repr

/-- Embedding of the decision logic of `check_and_scale`
(`backend/autoscaler_engine.py`, lines 9-81).  Inputs that the Python code
obtains from Docker (cpu_percent, memory_percent, current_replicas =
number of containers whose name contains the policy's container id) are
parameters.  The function returns the `ScalingEvent` recorded by the body,
or `none` when no scaling action is taken.  The `current_replicas ≠ 0`
guard embeds the `if containers:` non-emptiness check on the list whose
length is `current_replicas`. -/
def check_and_scale (policy : ScalingPolicy) (cpu_percent memory_percent : ℚ)
    (current_replicas : ℕ) : Option ScalingEvent :=
  if policy.is_active = false then none
  else if cpu_percent > policy.cpu_scale_up_threshold ∨
      memory_percent > policy.memory_scale_up_threshold then
    if (current_replicas : ℤ) < policy.max_replicas then
      some { policy_id := policy.id
             event_type := "scale_up"
             reason := if cpu_percent > policy.cpu_scale_up_threshold then "cpu" else "memory"
             replicas_before := current_replicas
             replicas_after := current_replicas + 1 }
    else none
  else if cpu_percent < policy.cpu_scale_down_threshold ∧
      memory_percent < policy.memory_scale_down_threshold then
    if policy.min_replicas < (current_replicas : ℤ) then
      if current_replicas ≠ 0 then
        some { policy_id := policy.id
               event_type := "scale_down"
               reason := "cpu_memory_low"
               replicas_before := current_replicas
               replicas_after := current_replicas - 1 }
      else none
    else none
  else none

/-- The spec's decision-engine signature also takes `time_since_last_scale`
and `cooldown_period`.  In the source, `check_and_scale` consults no clock
and the policy models have no `cooldown_period` column, so the decision is
computed from policy, metrics and replica count alone; the two time
arguments are ignored because they have no counterpart in the code. -/
def decideWithCooldown (policy : ScalingPolicy) (cpu_percent memory_percent : ℚ)
    (current_replicas : ℕ) (_timeSinceLastScale _cooldownPeriod : ℚ) : Option ScalingEvent :=
  check_and_scale policy cpu_percent memory_percent current_replicas

/-- Whether a decision is a scale-up action. -/
def isScaleUp : Option ScalingEvent → Bool
  | some e => e.event_type = "scale_up"
  | none => false

/-- Whether a decision is a scale-down action. -/
def isScaleDown : Option ScalingEvent → Bool
  | some e => e.event_type = "scale_down"
  | none => false

/-- A concrete active policy with the router's default thresholds
(min 1, max 5, cpu up 80 / down 30, memory up 85 / down 40). -/
def samplePolicy : ScalingPolicy :=
  { id := 1
    policy_name := "web"
    container_id := "web-app"
    min_replicas := 1
    max_replicas := 5
    target_cpu := 70
    cpu_scale_up_threshold := 80
    cpu_scale_down_threshold := 30
    target_memory := 75
    memory_scale_up_threshold := 85
    memory_scale_down_threshold := 40
    check_interval_seconds := 30
    is_active := true }

/-- Helper: characterisation of the scale-up decision of `check_and_scale`. -/
lemma check_up_iff (p : ScalingPolicy) (cpu mem : ℚ) (r : ℕ) (hact : p.is_active = true) :
    isScaleUp (check_and_scale p cpu mem r) = true ↔
      ((cpu > p.cpu_scale_up_threshold ∨ mem > p.memory_scale_up_threshold) ∧
        (r : ℤ) < p.max_replicas) := by
  unfold check_and_scale
  simp only [hact]
  split_ifs with h0 h1 h2 h3 h4 h5 <;> simp [isScaleUp] <;> first | tauto | omega

/-- Helper: characterisation of the scale-down decision of `check_and_scale`
for a policy whose thresholds are well-ordered and whose `min_replicas` is
at least 1. -/
lemma check_down_iff (p : ScalingPolicy) (cpu mem : ℚ) (r : ℕ)
    (hact : p.is_active = true)
    (hcpu : p.cpu_scale_down_threshold < p.cpu_scale_up_threshold)
    (hmem : p.memory_scale_down_threshold < p.memory_scale_up_threshold)
    (hmin : 1 ≤ p.min_replicas) :
    isScaleDown (check_and_scale p cpu mem r) = true ↔
      (cpu < p.cpu_scale_down_threshold ∧ mem < p.memory_scale_down_threshold ∧
        p.min_replicas < (r : ℤ)) := by
  unfold check_and_scale
  simp only [hact]
  split_ifs with h0 h1 h2 h3 h4 h5 <;> simp [isScaleDown]
  all_goals try tauto
  all_goals intro hc hm
  all_goals
    first
      | omega
      | (rcases ‹cpu > p.cpu_scale_up_threshold ∨ mem > p.memory_scale_up_threshold›
          with hu | hu <;> linarith)

/-- Concrete event produced by `samplePolicy` on cpu 90, memory 50, 1 replica. -/
def sampleUpEvent : ScalingEvent :=
  { policy_id := 1, event_type := "scale_up", reason := "cpu",
    replicas_before := 1, replicas_after := 2 }

/-- Concrete event produced by `samplePolicy` on cpu 10, memory 10, 3 replicas. -/
def sampleDownEvent : ScalingEvent :=
  { policy_id := 1, event_type := "scale_down", reason := "cpu_memory_low",
    replicas_before := 3, replicas_after := 2 }

/-- Claim C1, counterexample: at `time_since_last_scale = 0 < cooldown_period = 60`,
with cpu 90 breaching the sample policy's scale-up threshold 80 and 1 < 5 = max
replicas, the decision is a ScaleUp action, not `None`: the code performs no
cooldown check, so the claim "the decision engine returns None whenever
time_since_last_scale < cooldown_period" is false. -/
theorem cooldown_not_enforced_cex :
    decideWithCooldown samplePolicy 90 50 1 0 60 = some sampleUpEvent ∧
      isScaleUp (decideWithCooldown samplePolicy 90 50 1 0 60) = true ∧
      (0 : ℚ) < 60 := by
  refine ⟨by decide, by decide, by norm_num⟩

/-- Claim C1 (amended): the decision engine enforces no cooldown. The source
has no `cooldown_period` field and never consults `time_since_last_scale`;
even when `time_since_last_scale < cooldown_period`, an active policy whose
metrics breach a scale-up threshold with replicas below `max_replicas`
still yields a ScaleUp action rather than `None`. -/
theorem scaleUp_within_cooldown (p : ScalingPolicy) (cpu mem : ℚ) (r : ℕ)
    (tSince cooldown : ℚ) (_hcool : tSince < cooldown) (hact : p.is_active = true)
    (hbreach : cpu > p.cpu_scale_up_threshold ∨ mem > p.memory_scale_up_threshold)
    (hmax : (r : ℤ) < p.max_replicas) :
    isScaleUp (decideWithCooldown p cpu mem r tSince cooldown) = true := by
  unfold decideWithCooldown
  exact (check_up_iff p cpu mem r hact).mpr ⟨hbreach, hmax⟩

/-- Witness for `scaleUp_within_cooldown` at a concrete input. -/
theorem scaleUp_within_cooldown_witness :
    (0 : ℚ) < 60 ∧ samplePolicy.is_active = true ∧
      ((90 : ℚ) > samplePolicy.cpu_scale_up_threshold ∨
        (50 : ℚ) > samplePolicy.memory_scale_up_threshold) ∧
      ((1 : ℕ) : ℤ) < samplePolicy.max_replicas ∧
      isScaleUp (decideWithCooldown samplePolicy 90 50 1 0 60) = true :=
  ⟨by norm_num, by decide, by decide, by decide,
    scaleUp_within_cooldown samplePolicy 90 50 1 0 60 (by norm_num) (by decide)
      (by decide) (by decide)⟩

/-- Claim C3: for an active policy, the decision is ScaleUp if and only if
(cpu > cpu_scale_up_threshold OR memory > memory_scale_up_threshold) AND
current replicas < max_replicas; in particular at replicas = max_replicas no
ScaleUp is produced regardless of metrics. -/
theorem scaleUp_iff (p : ScalingPolicy) (cpu mem : ℚ) (r : ℕ)
    (hact : p.is_active = true) :
    isScaleUp (check_and_scale p cpu mem r) = true ↔
      ((cpu > p.cpu_scale_up_threshold ∨ mem > p.memory_scale_up_threshold) ∧
        (r : ℤ) < p.max_replicas) :=
  check_up_iff p cpu mem r hact

/-- Witness for `scaleUp_iff` at a concrete input. -/
theorem scaleUp_iff_witness :
    samplePolicy.is_active = true ∧
      (isScaleUp (check_and_scale samplePolicy 90 50 1) = true ↔
        (((90 : ℚ) > samplePolicy.cpu_scale_up_threshold ∨
            (50 : ℚ) > samplePolicy.memory_scale_up_threshold) ∧
          ((1 : ℕ) : ℤ) < samplePolicy.max_replicas)) :=
  ⟨by decide, scaleUp_iff samplePolicy 90 50 1 (by decide)⟩

/-- Claim C4: for an active policy with well-ordered thresholds
(down < up for cpu and for memory) and min_replicas ≥ 1, the decision is
ScaleDown if and only if cpu < cpu_scale_down_threshold AND
memory < memory_scale_down_threshold AND replicas > min_replicas; in
particular at replicas = min_replicas no ScaleDown is produced, and one low
metric alone never triggers a ScaleDown. -/
theorem scaleDown_iff (p : ScalingPolicy) (cpu mem : ℚ) (r : ℕ)
    (hact : p.is_active = true)
    (hcpu : p.cpu_scale_down_threshold < p.cpu_scale_up_threshold)
    (hmem : p.memory_scale_down_threshold < p.memory_scale_up_threshold)
    (hmin : 1 ≤ p.min_replicas) :
    isScaleDown (check_and_scale p cpu mem r) = true ↔
      (cpu < p.cpu_scale_down_threshold ∧ mem < p.memory_scale_down_threshold ∧
        p.min_replicas < (r : ℤ)) :=
  check_down_iff p cpu mem r hact hcpu hmem hmin

/-- Witness for `scaleDown_iff` at a concrete input. -/
theorem scaleDown_iff_witness :
    samplePolicy.is_active = true ∧
      samplePolicy.cpu_scale_down_threshold < samplePolicy.cpu_scale_up_threshold ∧
      samplePolicy.memory_scale_down_threshold < samplePolicy.memory_scale_up_threshold ∧
      1 ≤ samplePolicy.min_replicas ∧
      (isScaleDown (check_and_scale samplePolicy 10 10 3) = true ↔
        ((10 : ℚ) < samplePolicy.cpu_scale_down_threshold ∧
          (10 : ℚ) < samplePolicy.memory_scale_down_threshold ∧
          samplePolicy.min_replicas < ((3 : ℕ) : ℤ))) :=
  ⟨by decide, by decide, by decide, by decide,
    scaleDown_iff samplePolicy 10 10 3 (by decide) (by decide) (by decide) (by decide)⟩

/-- Claim C5, counterexample: a scale-down action records reason
"cpu_memory_low", not the claimed "low_utilization". -/
theorem scaleDown_reason_cex :
    check_and_scale samplePolicy 10 10 3 = some sampleDownEvent ∧
      sampleDownEvent.reason = "cpu_memory_low" ∧
      sampleDownEvent.reason ≠ "low_utilization" := by
  refine ⟨by decide, by decide, by decide⟩

/-- Claim C5 (amended): every recorded scale_up event has reason "cpu" when
the cpu threshold was breached (cpu taking precedence when both metrics
breached) and "memory" otherwise; every recorded scale_down event has
reason "cpu_memory_low" (the source's literal, where the spec said
"low_utilization"). -/
theorem event_reasons (p : ScalingPolicy) (cpu mem : ℚ) (r : ℕ) (e : ScalingEvent)
    (h : check_and_scale p cpu mem r = some e) :
    (e.event_type = "scale_up" →
        e.reason = if cpu > p.cpu_scale_up_threshold then "cpu" else "memory") ∧
      (e.event_type = "scale_down" → e.reason = "cpu_memory_low") := by
  unfold check_and_scale at h
  split_ifs at h with h0 h1 h2 h3 h4 h5
  all_goals simp only [Option.some.injEq] at h
  all_goals subst h
  all_goals refine ⟨fun hev => ?_, fun hev => ?_⟩
  all_goals dsimp only at hev ⊢
  all_goals
    first
      | rfl
      | exact absurd hev (by decide)
      | rw [if_pos ‹cpu > p.cpu_scale_up_threshold›]
      | rw [if_neg ‹¬cpu > p.cpu_scale_up_threshold›]

/-- Witness for `event_reasons` at a concrete input. -/
theorem event_reasons_witness :
    check_and_scale samplePolicy 90 50 1 = some sampleUpEvent ∧
      ((sampleUpEvent.event_type = "scale_up" →
          sampleUpEvent.reason =
            if (90 : ℚ) > samplePolicy.cpu_scale_up_threshold then "cpu" else "memory") ∧
        (sampleUpEvent.event_type = "scale_down" →
          sampleUpEvent.reason = "cpu_memory_low")) :=
  ⟨by decide, event_reasons samplePolicy 90 50 1 sampleUpEvent (by decide)⟩

/-- The in-memory `policies_db` dict of `backend/routers/auto_scaling.py`,
modelled as an association list with Python-dict semantics (insertion order
preserved, key overwrite in place). -/
abbrev PolicyStore : Type := List (ℕ × ScalingPolicy)

/-- Python dict assignment `d[k] = v`: overwrite in place if the key exists,
else append. -/
def dictInsert (store : PolicyStore) (k : ℕ) (v : ScalingPolicy) : PolicyStore :=
  if (List.any store fun kv => kv.1 = k) then
    List.map (fun kv => if kv.1 = k then (k, v) else kv) store
  else store ++ [(k, v)]

/-- Python dict lookup `d[k]` / membership `k in d`. -/
def dictGet (store : PolicyStore) (k : ℕ) : Option ScalingPolicy :=
  Option.map Prod.snd (List.find? (fun kv => kv.1 = k) store)

/-- Python `del d[k]`. -/
def dictDelete (store : PolicyStore) (k : ℕ) : PolicyStore :=
  List.filter (fun kv => kv.1 ≠ k) store

/-- Parameters of the `create_scaling_policy` endpoint
(`backend/routers/auto_scaling.py`, lines 52-66), with its default values. -/
structure CreateParams where
  policy_name : String
  container_id : String
  min_replicas : ℤ := 1
  max_replicas : ℤ := 5
  initial_replicas : ℤ := 1
  target_cpu : ℚ := 70
  cpu_scale_up_threshold : ℚ := 80
  cpu_scale_down_threshold : ℚ := 30
  target_memory : ℚ := 75
  memory_scale_up_threshold : ℚ := 85
  memory_scale_down_threshold : ℚ := 40
  check_interval_seconds : ℤ := 30
deriving DecidableEq, Repr

/-- Errors raised through `HTTPException` in the router. -/
inductive HTTPError where
  | badRequest (detail : String)
  | notFound (detail : String)
deriving DecidableEq, Repr

/-- Embedding of `create_scaling_policy`
(`backend/routers/auto_scaling.py`, lines 52-97): threshold validation, id
computed as (number of stored policies) + 1, policy stored inactive. -/
def create_scaling_policy (store : PolicyStore) (p : CreateParams) :
    Except HTTPError (PolicyStore × ScalingPolicy) :=
  if p.cpu_scale_down_threshold ≥ p.cpu_scale_up_threshold then
    .error (.badRequest "CPU scale down threshold must be less than scale up threshold")
  else if p.memory_scale_down_threshold ≥ p.memory_scale_up_threshold then
    .error (.badRequest "Memory scale down threshold must be less than scale up threshold")
  else
    let policy_id := List.length store + 1
    let policy : ScalingPolicy :=
      { id := policy_id
        policy_name := p.policy_name
        container_id := p.container_id
        min_replicas := p.min_replicas
        max_replicas := p.max_replicas
        target_cpu := p.target_cpu
        cpu_scale_up_threshold := p.cpu_scale_up_threshold
        cpu_scale_down_threshold := p.cpu_scale_down_threshold
        target_memory := p.target_memory
        memory_scale_up_threshold := p.memory_scale_up_threshold
        memory_scale_down_threshold := p.memory_scale_down_threshold
        check_interval_seconds := p.check_interval_seconds
        is_active := false }
    .ok (dictInsert store policy_id policy, policy)

/-- Optional parameters of the `update_scaling_policy` endpoint
(`backend/routers/auto_scaling.py`, lines 112-123); `none` models the
Python default `None`. -/
structure UpdateParams where
  policy_name : Option String := none
  is_active : Option Bool := none
  min_replicas : Option ℤ := none
  max_replicas : Option ℤ := none
  cpu_scale_up_threshold : Option ℚ := none
  cpu_scale_down_threshold : Option ℚ := none
  memory_scale_up_threshold : Option ℚ := none
  memory_scale_down_threshold : Option ℚ := none
  check_interval_seconds : Option ℤ := none
deriving DecidableEq, Repr

/-- Python truthiness guard `if s:` on an optional string. -/
def applyOptStr (cur : String) : Option String → String
  | none => cur
  | some v => if v = "" then cur else v

/-- Python truthiness guard `if n:` on an optional int. -/
def applyOptInt (cur : ℤ) : Option ℤ → ℤ
  | none => cur
  | some v => if v = 0 then cur else v

/-- Python truthiness guard `if x:` on an optional float. -/
def applyOptQ (cur : ℚ) : Option ℚ → ℚ
  | none => cur
  | some v => if v = 0 then cur else v

/-- Python `if b is not None:` guard on an optional bool. -/
def applyOptBool (cur : Bool) : Option Bool → Bool
  | none => cur
  | some v => v

/-- Embedding of `update_scaling_policy`
(`backend/routers/auto_scaling.py`, lines 112-151): 404 when the policy id
is unknown; otherwise each truthy submitted field overwrites the stored
field, with no threshold validation of any kind. -/
def update_scaling_policy (store : PolicyStore) (policy_id : ℕ) (u : UpdateParams) :
    Except HTTPError (PolicyStore × ScalingPolicy) :=
  match dictGet store policy_id with
  | none => .error (.notFound "Policy not found")
  | some policy =>
    let policy2 : ScalingPolicy :=
      { policy with
        policy_name := applyOptStr policy.policy_name u.policy_name
        is_active := applyOptBool policy.is_active u.is_active
        min_replicas := applyOptInt policy.min_replicas u.min_replicas
        max_replicas := applyOptInt policy.max_replicas u.max_replicas
        cpu_scale_up_threshold := applyOptQ policy.cpu_scale_up_threshold u.cpu_scale_up_threshold
        cpu_scale_down_threshold :=
          applyOptQ policy.cpu_scale_down_threshold u.cpu_scale_down_threshold
        memory_scale_up_threshold :=
          applyOptQ policy.memory_scale_up_threshold u.memory_scale_up_threshold
        memory_scale_down_threshold :=
          applyOptQ policy.memory_scale_down_threshold u.memory_scale_down_threshold
        check_interval_seconds :=
          applyOptInt policy.check_interval_seconds u.check_interval_seconds }
    .ok (dictInsert store policy_id policy2, policy2)

/-- Embedding of `delete_scaling_policy`
(`backend/routers/auto_scaling.py`, lines 185-194). -/
def delete_scaling_policy (store : PolicyStore) (policy_id : ℕ) :
    Except HTTPError PolicyStore :=
  match dictGet store policy_id with
  | none => .error (.notFound "Policy not found")
  | some _ => .ok (dictDelete store policy_id)

/-- Whether a router call raised an `HTTPException`. -/
def exceptIsError {α : Type} : Except HTTPError α → Bool
  | .error _ => true
  | .ok _ => false

/-- Creation parameters violating the cpu threshold ordering (down 90 ≥ up 80). -/
def c2BadParams : CreateParams :=
  { policy_name := "p", container_id := "c",
    cpu_scale_up_threshold := 80, cpu_scale_down_threshold := 90 }

/-- A store holding one valid policy under key 1. -/
def c2Store : PolicyStore := [(1, samplePolicy)]

/-- An update request submitting cpu_scale_down_threshold 90 against a stored
cpu_scale_up_threshold of 80. -/
def c2BadUpdate : UpdateParams := { cpu_scale_down_threshold := some 90 }

/-- The policy as stored after the violating update. -/
def c2BadPolicy : ScalingPolicy := { samplePolicy with cpu_scale_down_threshold := 90 }

/-- Claim C2, counterexample: an update request that makes
cpu_scale_down_threshold (90) exceed cpu_scale_up_threshold (80) is not
rejected: it succeeds and the stored policy is modified to the violating
values, so the claim fails for update requests. -/
theorem update_threshold_validation_cex :
    update_scaling_policy c2Store 1 c2BadUpdate = .ok ([(1, c2BadPolicy)], c2BadPolicy) ∧
      c2BadPolicy.cpu_scale_down_threshold ≥ c2BadPolicy.cpu_scale_up_threshold := by
  refine ⟨rfl, by decide⟩

/-- Claim C2 (amended): creation requests whose thresholds would violate
down < up (for cpu or for memory) are rejected with a validation error and
nothing is stored, but update requests are never validated: for any stored
policy, any update request succeeds, its submitted values applied without
any threshold check. -/
theorem create_validates_update_does_not :
    (∀ (store : PolicyStore) (p : CreateParams),
        (p.cpu_scale_down_threshold ≥ p.cpu_scale_up_threshold ∨
          p.memory_scale_down_threshold ≥ p.memory_scale_up_threshold) →
        exceptIsError (create_scaling_policy store p) = true) ∧
    (∀ (store : PolicyStore) (pid : ℕ) (u : UpdateParams) (pol : ScalingPolicy),
        dictGet store pid = some pol →
        exceptIsError (update_scaling_policy store pid u) = false) := by
  constructor
  · intro store p hv
    unfold create_scaling_policy
    split_ifs with h1 h2
    · rfl
    · rfl
    · rcases hv with hv | hv
      · exact absurd hv h1
      · exact absurd hv h2
  · intro store pid u pol h
    unfold update_scaling_policy
    rw [h]
    rfl

/-- Witness for `create_validates_update_does_not` at concrete inputs. -/
theorem create_validates_update_does_not_witness :
    (c2BadParams.cpu_scale_down_threshold ≥ c2BadParams.cpu_scale_up_threshold ∧
        exceptIsError (create_scaling_policy [] c2BadParams) = true) ∧
      (dictGet c2Store 1 = some samplePolicy ∧
        exceptIsError (update_scaling_policy c2Store 1 {}) = false) :=
  ⟨⟨by decide,
      create_validates_update_does_not.1 [] c2BadParams (Or.inl (by decide))⟩,
    ⟨by decide,
      create_validates_update_does_not.2 c2Store 1 {} samplePolicy (by decide)⟩⟩

/-- Creation parameters for the id-reuse scenario: three policies that differ
only in name. -/
def c10ParamsA : CreateParams := { policy_name := "a", container_id := "c" }

/-- Second policy of the id-reuse scenario. -/
def c10ParamsB : CreateParams := { policy_name := "b", container_id := "c" }

/-- Third policy of the id-reuse scenario. -/
def c10ParamsC : CreateParams := { policy_name := "c", container_id := "c" }

/-- Store component of a successful router call. -/
def exceptStore : Except HTTPError (PolicyStore × ScalingPolicy) → Option PolicyStore
  | .ok sp => some sp.1
  | .error _ => none

/-- Policy component of a successful router call. -/
def exceptPolicy : Except HTTPError (PolicyStore × ScalingPolicy) → Option ScalingPolicy
  | .ok sp => some sp.2
  | .error _ => none

/-- Store after creating policy "a" in the empty registry (it gets id 1). -/
def c10Store1 : PolicyStore :=
  (exceptStore (create_scaling_policy [] c10ParamsA)).getD []

/-- Store after creating policy "b" as well (it gets id 2). -/
def c10Store2 : PolicyStore :=
  (exceptStore (create_scaling_policy c10Store1 c10ParamsB)).getD []

/-- Store after deleting the policy with id 1. -/
def c10Store3 : PolicyStore :=
  match delete_scaling_policy c10Store2 1 with
  | .ok s => s
  | .error _ => c10Store2

/-- Result of creating policy "c" after the deletion. -/
def c10Result : Except HTTPError (PolicyStore × ScalingPolicy) :=
  create_scaling_policy c10Store3 c10ParamsC

/-- Claim C10: policy ids are not unique over the registry's lifetime. After
creating two policies (ids 1 and 2) and deleting id 1, the next create
computes id = (number of stored policies) + 1 = 2, which collides with the
surviving policy "b": the new policy "c" is returned with id 2 and silently
replaces "b" in the store, leaving a single stored policy. -/
theorem policy_id_reuse :
    Option.map ScalingPolicy.id (exceptPolicy c10Result) = some 2 ∧
      Option.map ScalingPolicy.policy_name (dictGet c10Store3 2) = some "b" ∧
      Option.map ScalingPolicy.policy_name
        (Option.bind (exceptStore c10Result) (fun s => dictGet s 2)) = some "c" ∧
      Option.map List.length (exceptStore c10Result) = some 1 := by
  refine ⟨by decide, by decide, by decide, by decide⟩

/-- Outcome of one dispatched HTTP GET in `send_request`
(`backend/routers/load_testing.py`, lines 186-210): an HTTP response of any
status code, or one of the exceptions the code catches. -/
inductive RequestResult where
  | response (status : ℕ) (latency : ℚ)
  | timeoutExc
  | connectExc
  | otherExc (msg : String)
deriving DecidableEq, Repr

/-- Mutable counters of `LoadTestResult` touched by `send_request`
(`backend/routers/load_testing.py`, lines 18-31). -/
structure TestState where
  request_times : List ℚ
  success_count : ℕ
  error_count : ℕ
  errors : List String
  responses : List (ℕ × ℚ)
deriving DecidableEq, Repr

/-- Fresh `LoadTestResult` counters. -/
def initTestState : TestState :=
  { request_times := [], success_count := 0, error_count := 0, errors := [], responses := [] }

/-- Embedding of `send_request` (`backend/routers/load_testing.py`, lines
186-210): any HTTP response, whatever its status code, increments
`success_count` and records the response; `httpx.TimeoutException`,
`httpx.ConnectError` and any other exception increment `error_count` and
append one message to `errors`. -/
def send_request (r : RequestResult) (s : TestState) : TestState :=
  match r with
  | .response status latency =>
    { s with
      request_times := s.request_times ++ [latency]
      success_count := s.success_count + 1
      responses := s.responses ++ [(status, latency)] }
  | .timeoutExc =>
    { s with error_count := s.error_count + 1, errors := s.errors ++ ["Timeout"] }
  | .connectExc =>
    { s with error_count := s.error_count + 1, errors := s.errors ++ ["Connection Error"] }
  | .otherExc msg =>
    { s with error_count := s.error_count + 1, errors := s.errors ++ [msg] }

/-- Folding the completions of a run's dispatched requests into the counters
(outcomes are folded as they complete; the aggregate is order-independent). -/
def run_requests (rs : List RequestResult) (s : TestState) : TestState :=
  List.foldl (fun s r => send_request r s) s rs

/-- Whether the second char-list starts with the first. -/
def charListHasPre : List Char → List Char → Bool
  | [], _ => true
  | _ :: _, [] => false
  | a :: as, b :: bs => a = b && charListHasPre as bs

/-- Whether the second char-list has the first as a contiguous sublist
(Python's `in` on strings). -/
def charListSub (needle : List Char) : List Char → Bool
  | [] => charListHasPre needle []
  | b :: bs => charListHasPre needle (b :: bs) || charListSub needle bs

/-- Python `needle in hay` on strings. -/
def strContainsSub (hay needle : String) : Bool :=
  charListSub needle.toList hay.toList

/-- The four buckets of `LoadTestResult._error_breakdown`
(`backend/routers/load_testing.py`, lines 57-69). -/
structure ErrorBreakdown where
  timeouts : ℕ
  connection_errors : ℕ
  server_errors : ℕ
  client_errors : ℕ
deriving DecidableEq, Repr

/-- One step of the `_error_breakdown` classification: the if/elif/else chain
sends each error message to exactly one bucket. -/
def breakdownStep (b : ErrorBreakdown) (e : String) : ErrorBreakdown :=
  if strContainsSub (String.toLower e) "timeout" then
    { b with timeouts := b.timeouts + 1 }
  else if strContainsSub (String.toLower e) "connection" then
    { b with connection_errors := b.connection_errors + 1 }
  else if String.take e 1 = "5" then
    { b with server_errors := b.server_errors + 1 }
  else
    { b with client_errors := b.client_errors + 1 }

/-- Embedding of `LoadTestResult._error_breakdown`. -/
def error_breakdown (errors : List String) : ErrorBreakdown :=
  List.foldl breakdownStep { timeouts := 0, connection_errors := 0, server_errors := 0, client_errors := 0 } errors

/-- Sum of all per-kind error counts of a breakdown. -/
def breakdownSum (b : ErrorBreakdown) : ℕ :=
  b.timeouts + b.connection_errors + b.server_errors + b.client_errors

/-- Python `int((current_time / duration) * total_requests)` of
`run_load_test` (`backend/routers/load_testing.py`, line 148).  The exact
value of `(t / duration) * total` is the fraction
`(t.num * duration.den * total) / (t.den * duration.num)`, and `Int.tdiv`
truncates toward zero exactly as Python's `int` does; `toNat` clamps at 0,
matching the loop's `request_idx < expected` test for negative values. -/
def expectedCount (t duration : ℚ) (total : ℕ) : ℕ :=
  (Int.tdiv (t.num * (duration.den : ℤ) * (total : ℤ))
    ((t.den : ℤ) * duration.num)).toNat

/-- State of the dispatch loop of `run_load_test`
(`backend/routers/load_testing.py`, lines 140-165): the next request index,
the coroutines accumulated in `tasks` (recorded by request index), and the
groups already passed to `asyncio.gather` in order. -/
structure DispatchState where
  request_idx : ℕ
  tasks : List ℕ
  batches : List (List ℕ)
deriving DecidableEq, Repr

/-- Embedding of the inner `while request_idx < expected_request_count and
request_idx < total_requests` loop (lines 151-158): append the next request
to `tasks`; once `len(tasks) >= concurrency`, gather the batch and reset
`tasks`.  The first argument bounds the number of iterations; every
iteration requires `request_idx < total` and increments `request_idx`, so
`total - request_idx` iterations always suffice and the callers pass
exactly that, making this structural recursion compute the loop's result. -/
def innerDispatch (concurrency total expected : ℕ) : ℕ → DispatchState → DispatchState
  | 0, s => s
  | fuel + 1, s =>
    if s.request_idx < expected ∧ s.request_idx < total then
      if concurrency ≤ (s.tasks ++ [s.request_idx]).length then
        innerDispatch concurrency total expected fuel
          { request_idx := s.request_idx + 1, tasks := [],
            batches := s.batches ++ [s.tasks ++ [s.request_idx]] }
      else
        innerDispatch concurrency total expected fuel
          { request_idx := s.request_idx + 1, tasks := s.tasks ++ [s.request_idx],
            batches := s.batches }
    else s

/-- Embedding of the outer `while request_idx < total_requests and
(time.time() - start_time) < duration` loop (lines 145-161); `ticks` is the
sequence of elapsed-time samples `time.time() - start_time` observed at
successive iterations. -/
def outerDispatch (concurrency total : ℕ) (duration : ℚ) :
    List ℚ → DispatchState → DispatchState
  | [], s => s
  | t :: ts, s =>
    if s.request_idx < total ∧ t < duration then
      outerDispatch concurrency total duration ts
        (innerDispatch concurrency total (expectedCount t duration total)
          (total - s.request_idx) s)
    else s

/-- The trailing `if tasks: await asyncio.gather(*tasks)` (lines 164-165). -/
def finalGather (s : DispatchState) : DispatchState :=
  if s.tasks = [] then s
  else { request_idx := s.request_idx, tasks := [], batches := s.batches ++ [s.tasks] }

/-- The whole dispatch discipline of `run_load_test` for one run: the outer
timed loop from a fresh state followed by the final gather. -/
def run_load_test_dispatch (ticks : List ℚ) (total concurrency : ℕ)
    (duration : ℚ) : DispatchState :=
  finalGather (outerDispatch concurrency total duration ticks
    { request_idx := 0, tasks := [], batches := [] })

/-- Helper: each classified error message lands in exactly one bucket. -/
lemma breakdownStep_sum (b : ErrorBreakdown) (e : String) :
    breakdownSum (breakdownStep b e) = breakdownSum b + 1 := by
  unfold breakdownStep
  split_ifs <;> simp [breakdownSum] <;> omega

/-- Helper: folding the classification over messages adds their number. -/
lemma foldl_breakdown_sum (es : List String) : ∀ b : ErrorBreakdown,
    breakdownSum (List.foldl breakdownStep b es) = breakdownSum b + es.length := by
  induction es with
  | nil => intro b; simp
  | cons e es ih =>
    intro b
    rw [List.foldl_cons, ih, breakdownStep_sum]
    simp [Nat.add_comm, Nat.add_assoc, Nat.add_left_comm]

/-- Helper: the breakdown buckets of an error list sum to its length. -/
lemma error_breakdown_sum (es : List String) :
    breakdownSum (error_breakdown es) = es.length := by
  unfold error_breakdown
  rw [foldl_breakdown_sum]
  simp [breakdownSum]

/-- Helper: one completed request increments exactly one of the success
counter and the error list. -/
lemma send_request_counts (r : RequestResult) (s : TestState) :
    (send_request r s).success_count + (send_request r s).errors.length =
      s.success_count + s.errors.length + 1 := by
  cases r <;> simp [send_request] <;> omega

/-- Helper: unfolding `run_requests` one completion at a time. -/
lemma run_requests_cons (r : RequestResult) (rs : List RequestResult) (s : TestState) :
    run_requests (r :: rs) s = run_requests rs (send_request r s) := rfl

/-- Helper: after folding all completions, success count plus error count
equals the number of completions. -/
lemma run_requests_counts (rs : List RequestResult) : ∀ s : TestState,
    (run_requests rs s).success_count + (run_requests rs s).errors.length =
      s.success_count + s.errors.length + rs.length := by
  induction rs with
  | nil => intro s; simp [run_requests]
  | cons r rs ih =>
    intro s
    rw [run_requests_cons, ih, send_request_counts]
    simp [Nat.add_comm, Nat.add_assoc, Nat.add_left_comm]

/-- Helper: the inner dispatch loop never pushes `request_idx` past `total`. -/
lemma innerDispatch_idx (c total e : ℕ) : ∀ (fuel : ℕ) (s : DispatchState),
    s.request_idx ≤ total → (innerDispatch c total e fuel s).request_idx ≤ total := by
  intro fuel
  induction fuel with
  | zero => intro s h; simpa [innerDispatch] using h
  | succ fuel ih =>
    intro s h
    rw [innerDispatch]
    split_ifs with h1 h2
    · exact ih _ (Nat.succ_le_of_lt h1.2)
    · exact ih _ (Nat.succ_le_of_lt h1.2)
    · exact h

/-- Invariant of the dispatch loop: the pending `tasks` stay strictly below
the concurrency limit and every gathered batch is at most that limit. -/
def BatchInv (c : ℕ) (s : DispatchState) : Prop :=
  s.tasks.length < c ∧ ∀ b ∈ s.batches, b.length ≤ c

/-- Helper: the inner dispatch loop preserves the batch invariant. -/
lemma innerDispatch_batchInv (c total e : ℕ) : ∀ (fuel : ℕ) (s : DispatchState),
    BatchInv c s → BatchInv c (innerDispatch c total e fuel s) := by
  intro fuel
  induction fuel with
  | zero => intro s h; simpa [innerDispatch] using h
  | succ fuel ih =>
    intro s h
    rw [innerDispatch]
    split_ifs with h1 h2
    · refine ih _ ⟨?_, ?_⟩
      · simpa using Nat.lt_of_le_of_lt (Nat.zero_le _) h.1
      · intro b hb
        simp only [List.mem_append, List.mem_singleton] at hb
        rcases hb with hb | hb
        · exact h.2 b hb
        · subst hb
          simpa using Nat.succ_le_of_lt h.1
    · exact ih _ ⟨Nat.lt_of_not_le h2, h.2⟩
    · exact h

/-- Helper: the outer dispatch loop never pushes `request_idx` past `total`. -/
lemma outerDispatch_idx (c total : ℕ) (duration : ℚ) : ∀ (ticks : List ℚ) (s : DispatchState),
    s.request_idx ≤ total → (outerDispatch c total duration ticks s).request_idx ≤ total := by
  intro ticks
  induction ticks with
  | nil => intro s h; simpa [outerDispatch] using h
  | cons t ts ih =>
    intro s h
    rw [outerDispatch]
    split_ifs with h1
    · exact ih _ (innerDispatch_idx c total _ _ s h)
    · exact h

/-- Helper: the outer dispatch loop preserves the batch invariant. -/
lemma outerDispatch_batchInv (c total : ℕ) (duration : ℚ) :
    ∀ (ticks : List ℚ) (s : DispatchState),
    BatchInv c s → BatchInv c (outerDispatch c total duration ticks s) := by
  intro ticks
  induction ticks with
  | nil => intro s h; simpa [outerDispatch] using h
  | cons t ts ih =>
    intro s h
    rw [outerDispatch]
    split_ifs with h1
    · exact ih _ (innerDispatch_batchInv c total _ _ s h)
    · exact h

/-- Helper: the final gather keeps `request_idx` unchanged. -/
lemma finalGather_idx (s : DispatchState) :
    (finalGather s).request_idx = s.request_idx := by
  unfold finalGather
  split_ifs <;> rfl

/-- Helper: after the final gather every batch is at most the limit. -/
lemma finalGather_batches (c : ℕ) (s : DispatchState) (h : BatchInv c s) :
    ∀ b ∈ (finalGather s).batches, b.length ≤ c := by
  unfold finalGather
  split_ifs with h1
  · exact h.2
  · intro b hb
    simp only [List.mem_append, List.mem_singleton] at hb
    rcases hb with hb | hb
    · exact h.2 b hb
    · subst hb
      exact le_of_lt h.1

/-- Claim C6, counterexample: a request that receives an HTTP response with
status 500 is counted as a success (success_count incremented, no error
recorded), because `send_request` catches only exceptions and a 5xx response
raises none; the claim that a 5xx response is classified as a server_error
outcome, not a success, is false. -/
theorem server_error_counted_success_cex :
    (send_request (.response 500 10) initTestState).success_count = 1 ∧
      (send_request (.response 500 10) initTestState).errors = [] ∧
      (send_request (.response 500 10) initTestState).error_count = 0 ∧
      (error_breakdown (send_request (.response 500 10) initTestState).errors).server_errors
        = 0 := by
  refine ⟨rfl, rfl, rfl, rfl⟩

/-- Claim C6 (amended): every dispatched request is classified into exactly
one outcome — it adds exactly one record, either a response or an error
message, and bumps exactly one of success_count and error_count; but an
HTTP response with any status code, 5xx included, is counted as a success
with no error recorded (errors arise only from exceptions, bucketed by
message into timeouts, connection_errors, server_errors and
client_errors). -/
theorem request_classification (r : RequestResult) (s : TestState) :
    ((send_request r s).responses.length + (send_request r s).errors.length
        = s.responses.length + s.errors.length + 1) ∧
      ((send_request r s).success_count + (send_request r s).error_count
        = s.success_count + s.error_count + 1) ∧
      (∀ status latency, r = RequestResult.response status latency →
        (send_request r s).success_count = s.success_count + 1 ∧
          (send_request r s).errors = s.errors) := by
  cases r <;> simp [send_request] <;> omega

/-- Witness for `request_classification` at a concrete input. -/
theorem request_classification_witness :
    ((send_request (.response 503 7) initTestState).responses.length +
          (send_request (.response 503 7) initTestState).errors.length
        = initTestState.responses.length + initTestState.errors.length + 1) ∧
      ((send_request (.response 503 7) initTestState).success_count +
          (send_request (.response 503 7) initTestState).error_count
        = initTestState.success_count + initTestState.error_count + 1) ∧
      (∀ status latency,
        RequestResult.response 503 7 = RequestResult.response status latency →
        (send_request (.response 503 7) initTestState).success_count
            = initTestState.success_count + 1 ∧
          (send_request (.response 503 7) initTestState).errors = initTestState.errors) :=
  request_classification (.response 503 7) initTestState

/-- Claim C7: for every run, success_count plus the sum of all per-kind
error-breakdown counts equals the number of requests actually dispatched
(each completion increments exactly one counter and each error message is
tallied in exactly one bucket), and the number dispatched never exceeds
total_requests. -/
theorem aggregate_counts (ticks : List ℚ) (total concurrency : ℕ) (duration : ℚ)
    (rs : List RequestResult)
    (hlen : rs.length = (run_load_test_dispatch ticks total concurrency duration).request_idx) :
    (run_requests rs initTestState).success_count +
        breakdownSum (error_breakdown (run_requests rs initTestState).errors) =
      (run_load_test_dispatch ticks total concurrency duration).request_idx ∧
      (run_load_test_dispatch ticks total concurrency duration).request_idx ≤ total := by
  constructor
  · rw [error_breakdown_sum, run_requests_counts rs initTestState]
    simpa [initTestState] using hlen
  · unfold run_load_test_dispatch
    rw [finalGather_idx]
    exact outerDispatch_idx concurrency total duration ticks _ (Nat.zero_le _)

/-- Witness for `aggregate_counts` at a concrete input: one tick at elapsed
time 5 of a duration-10 run with total 3 dispatches exactly one request. -/
theorem aggregate_counts_witness :
    ([RequestResult.timeoutExc].length
        = (run_load_test_dispatch [5] 3 2 10).request_idx) ∧
      ((run_requests [RequestResult.timeoutExc] initTestState).success_count +
          breakdownSum
            (error_breakdown (run_requests [RequestResult.timeoutExc] initTestState).errors) =
        (run_load_test_dispatch [5] 3 2 10).request_idx ∧
        (run_load_test_dispatch [5] 3 2 10).request_idx ≤ 3) :=
  ⟨by decide, aggregate_counts [5] 3 2 10 [RequestResult.timeoutExc] (by decide)⟩

/-- Claim C8: with a positive concurrency parameter, every batch handed to
`asyncio.gather` holds at most `concurrency` requests.  The loop appends
coroutine objects to `tasks` (they are not yet running), gathers the batch
as soon as `len(tasks)` reaches `concurrency`, and awaits the whole batch
before dispatching further, so the requests in flight at any instant are
exactly the members of the one batch currently being gathered — hence never
more than `concurrency`. -/
theorem concurrency_bound (ticks : List ℚ) (total concurrency : ℕ) (duration : ℚ)
    (hc : 1 ≤ concurrency) (b : List ℕ)
    (hb : b ∈ (run_load_test_dispatch ticks total concurrency duration).batches) :
    b.length ≤ concurrency := by
  have h0 : BatchInv concurrency { request_idx := 0, tasks := [], batches := [] } :=
    ⟨by simpa using hc, by simp⟩
  have h1 := outerDispatch_batchInv concurrency total duration ticks _ h0
  exact finalGather_batches concurrency _ h1 b hb

/-- Witness for `concurrency_bound` at a concrete input: one tick at elapsed
time 9 of a duration-10 run with total 4 and concurrency 2 gathers the
batches [0, 1] and [2]. -/
theorem concurrency_bound_witness :
    1 ≤ 2 ∧ [0, 1] ∈ (run_load_test_dispatch [9] 4 2 10).batches ∧
      ([0, 1] : List ℕ).length ≤ 2 :=
  ⟨by decide, by decide,
    concurrency_bound [9] 4 2 10 (by decide) [0, 1] (by decide)⟩

/-- Start time of pass `k` of `run_autoscaler`
(`backend/autoscaler_engine.py`, lines 86-102).  The scheduler is a single
sequential loop: each pass iterates the active policies in order, awaiting
`check_and_scale` and then `asyncio.sleep(policy.check_interval_seconds)`
for each one, and ends with `asyncio.sleep(10)`.  With checks modelled as
instantaneous and a fixed list of active-policy intervals, one pass lasts
the sum of all intervals plus 10 seconds. -/
def passStart (intervals : List ℤ) : ℕ → ℤ
  | 0 => 0
  | k + 1 => passStart intervals k + (intervals.sum + 10)

/-- Time at which the policy at position `i` is polled during pass `k`:
before reaching it, the loop has slept the intervals of the policies at
positions 0..i-1 of the same pass. -/
def pollTime (intervals : List ℤ) (i k : ℕ) : ℤ :=
  passStart intervals k + (List.take i intervals).sum

/-- Claim C9, counterexample: with two active policies whose
check_interval_seconds are 5 and 100, consecutive polls of the first policy
are 115 seconds apart (5 + 100 + 10), not 5, and the second policy's first
poll is delayed 5 seconds by the first policy's interval — policies do not
run as independent tasks with their own timers. -/
theorem scheduler_sequential_cex :
    pollTime [5, 100] 0 1 - pollTime [5, 100] 0 0 = 115 ∧ (115 : ℤ) ≠ 5 ∧
      pollTime [5, 100] 1 0 = 5 ∧ (5 : ℤ) ≠ 0 := by
  refine ⟨by decide, by decide, by decide, by decide⟩

/-- Claim C9 (amended): the autoscaler scheduler is one sequential loop, not
one task per policy.  Within a pass it polls active policies in order,
sleeping each policy's check_interval_seconds after its check and 10
seconds at the end of the pass, so the interval between consecutive polls
of any given policy equals the sum of all active policies' intervals plus
10 — governed by every policy's interval, not the policy's own — and a
policy's poll within a pass is offset by the intervals of the policies
before it. -/
theorem poll_gap_sum_of_intervals (intervals : List ℤ) (i k : ℕ) :
    pollTime intervals i (k + 1) - pollTime intervals i k = intervals.sum + 10 ∧
      pollTime intervals i 0 = (List.take i intervals).sum := by
  constructor
  · unfold pollTime
    rw [passStart]
    ring
  · unfold pollTime
    rw [passStart]
    ring

end IntelliScaleSim
